import Mathlib

/-!
Shallow embedding of the valuation engine of
`src/python/stock_fair_value.py` (class `StockValuator`).

Conventions of the embedding:
* Python float arithmetic is modelled exactly over `ℚ`.
* A raw field that may be absent (`dict.get`, `None`) is an `Option`.
* An external call that may raise is represented by an `Except`/`Option`
  outcome passed in as an argument; the in-memory P/E cache is an explicit
  association list threaded through `fetch_pe_ratio_multi_source`.
* Python truthiness tests (`if x:`) on numbers are embedded as `x ≠ 0`,
  and on optional values as the combined none/zero test.
-/

namespace StockFairValue

/-- Constant `self.discount_rate` set in `StockValuator.__init__`. -/
def discount_rate : ℚ := 0.12

/-- Constant `self.max_growth_rate`. -/
def max_growth_rate : ℚ := 0.08

/-- Constant `self.terminal_growth_rate`. -/
def terminal_growth_rate : ℚ := 0.08

/-- Constant `self.dcf_weight`. -/
def dcf_weight : ℚ := 0.6

/-- Constant `self.comps_weight`. -/
def comps_weight : ℚ := 0.4

/-- Constant `self.pe_conservative_factor`. -/
def pe_conservative_factor : ℚ := 0.85

/-- Constant `self.max_pe_ratio`. -/
def max_pe_ratio : ℚ := 40

/-- Constant `self.min_pe_ratio`. -/
def min_pe_ratio : ℚ := 5

/-- Table `self.default_industry_pe_ratios`, read through
`dict.get(sector, table[Default])` as in lines 549 and 596. -/
def default_industry_pe_ratios (sector : String) : ℚ :=
  if sector = "Technology" then 22
  else if sector = "Healthcare" then 18
  else if sector = "Financial Services" then 10
  else if sector = "Consumer Cyclical" then 16
  else if sector = "Consumer Defensive" then 20
  else if sector = "Energy" then 12
  else if sector = "Industrials" then 13
  else if sector = "Materials" then 12
  else if sector = "Real Estate" then 14
  else if sector = "Utilities" then 16
  else if sector = "Communication Services" then 18
  else 18

/-- Python `sorted` / `list.sort` on rationals (stability is irrelevant for
values in `ℚ`). -/
def pysort (l : List ℚ) : List ℚ :=
  l.insertionSort (· ≤ ·)

/-- Python `statistics.mean`. -/
def pymean (l : List ℚ) : ℚ :=
  l.sum / (l.length : ℚ)

/-- Python `statistics.median`: middle element of the sorted data for odd
length, average of the two middle elements for even length. -/
def pymedian (l : List ℚ) : ℚ :=
  let s := pysort l
  let n := s.length
  if n % 2 = 1 then s.getD (n / 2) 0
  else (s.getD (n / 2 - 1) 0 + s.getD (n / 2) 0) / 2

/-- Python `statistics.quantiles(data, n=n)[i-1]` with the default
`exclusive` method: sort the data, set `m = len+1`, `j = i*m // n` clamped
into `[1, len-1]`, `delta = i*m - j*n`, and interpolate
`(data[j-1]*(n-delta) + data[j]*delta) / n`. -/
def py_quantile_exclusive (data : List ℚ) (n i : ℕ) : ℚ :=
  let s := pysort data
  let ld := s.length
  let m := ld + 1
  let j0 := i * m / n
  let j := if j0 < 1 then 1 else if ld - 1 < j0 then ld - 1 else j0
  let delta : ℤ := (i * m : ℤ) - (j * n : ℤ)
  (s.getD (j - 1) 0 * ((n : ℚ) - (delta : ℚ)) + s.getD j 0 * (delta : ℚ)) / (n : ℚ)

/-- Outlier-removal step of `StockValuator.aggregate_pe_ratios`
(lines 445-456): when at least 3 ratios are present, compute `Q1`, `Q3`
with `statistics.quantiles(pe_ratios, n=4)`, keep the values inside
`[Q1 - 1.5*IQR, Q3 + 1.5*IQR]`, and fall back to the unfiltered list when
the filter empties the set. -/
def filtered_pe_ratios (pe_ratios : List ℚ) : List ℚ :=
  if 3 ≤ pe_ratios.length then
    let q1 := py_quantile_exclusive pe_ratios 4 1
    let q3 := py_quantile_exclusive pe_ratios 4 3
    let iqr := q3 - q1
    let lower_bound := q1 - 1.5 * iqr
    let upper_bound := q3 + 1.5 * iqr
    let filtered := pe_ratios.filter (fun pe => decide (lower_bound ≤ pe ∧ pe ≤ upper_bound))
    if filtered ≠ [] then filtered else pe_ratios
  else pe_ratios

/-- Central-tendency blend of `StockValuator.aggregate_pe_ratios`
(lines 458-470): one value as-is, two values averaged, three or more
blended as `0.6 * median + 0.4 * mean`. -/
def central_blend (l : List ℚ) : ℚ :=
  if l.length = 1 then l.getD 0 0
  else if l.length = 2 then pymean l
  else 0.6 * pymedian l + 0.4 * pymean l

/-- Function `StockValuator.aggregate_pe_ratios` (lines 432-470): `None` on
an empty input, otherwise the blend of the outlier-filtered list. -/
def aggregate_pe_ratios (pe_ratios : List ℚ) : Option ℚ :=
  if pe_ratios = [] then none
  else some (central_blend (filtered_pe_ratios pe_ratios))

/-- Clamp applied at lines 518 and 573:
`max(min_pe_ratio, min(x, max_pe_ratio))`. -/
def pe_clamp (x : ℚ) : ℚ :=
  max min_pe_ratio (min x max_pe_ratio)

/-- Lookup in the `self.pe_ratio_cache` dict, modelled as an association
list (most recent write first). -/
def cache_lookup (cache : List (String × ℚ)) (t : String) : Option ℚ :=
  match cache with
  | [] => none
  | p :: rest => if p.1 = t then some p.2 else cache_lookup rest t

/-- Collection loop of `fetch_pe_ratio_multi_source` (lines 498-506): each
source yields an optional ratio; a raised exception or a `None` is skipped,
and the Python truthiness test `if pe_ratio:` also drops a zero. -/
def collect_pe_results (source_results : List (Option ℚ)) : List ℚ :=
  (source_results.filterMap id).filter (fun x => decide (x ≠ 0))

/-- Function `StockValuator.fetch_pe_ratio_multi_source` (lines 472-526),
with the per-source outcomes passed in and the cache threaded explicitly.
Returns the optional conservative P/E together with the updated cache. -/
def fetch_pe_ratio_multi_source (cache : List (String × ℚ)) (ticker : String)
    (source_results : List (Option ℚ)) : Option ℚ × List (String × ℚ) :=
  match cache_lookup cache ticker with
  | some v => (some v, cache)
  | none =>
    let pe_ratios := collect_pe_results source_results
    if pe_ratios = [] then (none, cache)
    else
      match aggregate_pe_ratios pe_ratios with
      | none => (none, cache)
      | some aggregated_pe =>
        if aggregated_pe ≠ 0 then
          let conservative_pe := pe_clamp (aggregated_pe * pe_conservative_factor)
          (some conservative_pe, (ticker, conservative_pe) :: cache)
        else (none, cache)

/-- Function `StockValuator.get_conservative_pe_estimate` (lines 528-576),
with the multi-source fetch outcome passed in as `multi_source_pe` and the
optional market cap as an `Option` (Python treats both `None` and `0` as
"unknown"). Builds the candidate list, takes the element at index
`len // 2` of the sorted list, and clamps. -/
def get_conservative_pe_estimate (multi_source_pe : Option ℚ) (sector : String)
    (market_cap : Option ℚ) : ℚ :=
  let base : List ℚ :=
    match multi_source_pe with
    | some v => if v ≠ 0 then [v] else []
    | none => []
  let industry_pe := default_industry_pe_ratios sector
  let with_industry := base ++ [industry_pe]
  let mc := market_cap.getD 0
  let pe_estimates :=
    if mc ≠ 0 then
      let size_adjusted_pe :=
        if 500000000000 < mc then industry_pe * 0.95
        else if 100000000000 < mc then industry_pe * 0.98
        else if mc < 10000000000 then industry_pe * 0.85
        else industry_pe * 0.92
      with_industry ++ [size_adjusted_pe]
    else with_industry
  let final_pe :=
    if 2 ≤ pe_estimates.length then (pysort pe_estimates).getD (pe_estimates.length / 2) 0
    else pe_estimates.getD 0 0
  pe_clamp final_pe

/-- Fully normalized per-stock record: the dict returned by
`StockValuator.fetch_stock_data` (lines 700-711 and 721-732). -/
structure StockRecord where
  ticker : String
  current_price : ℚ
  fcf_per_share : ℚ
  eps : ℚ
  book_value : ℚ
  sector : String
  growth_rate : ℚ
  pe_ratio : ℚ
  market_cap : ℚ
  company_name : String

/-- Raw provider snapshot: every field the normalizer reads from the
quote download or the `info` dict, any of which may be absent.
`close_price` is the realized close taken from the quote data
(`session_data` in lines 637-649); the rest are `info` keys. -/
structure RawInfo where
  close_price : Option ℚ
  currentPrice : Option ℚ
  regularMarketPrice : Option ℚ
  previousClose : Option ℚ
  freeCashflow : Option ℚ
  operatingCashflow : Option ℚ
  sharesOutstanding : Option ℚ
  impliedSharesOutstanding : Option ℚ
  trailingEps : Option ℚ
  forwardEps : Option ℚ
  dilutedEPS : Option ℚ
  bookValue : Option ℚ
  tangibleBookValue : Option ℚ
  sector : Option String
  earningsGrowth : Option ℚ
  revenueGrowth : Option ℚ
  marketCap : Option ℚ
  longName : Option String

/-- Function `StockValuator.fetch_stock_data` (lines 598-732). A raw
snapshot of `none` is the case where the entire provider call fails
(the `except` branch at lines 713-732); otherwise each field is
normalized with its fallback chain. The multi-source P/E outcome used by
`get_conservative_pe_estimate` is passed in as `multi_source_pe`. -/
def fetch_stock_data (multi_source_pe : Option ℚ) (ticker : String)
    (raw : Option RawInfo) : StockRecord :=
  match raw with
  | none =>
    let fallback_pe := get_conservative_pe_estimate multi_source_pe "Technology"
      (some 150000000000)
    { ticker := ticker, current_price := 150, fcf_per_share := 8, eps := 4,
      book_value := 25, sector := "Technology", growth_rate := 0.06,
      pe_ratio := fallback_pe, market_cap := 150000000000, company_name := ticker }
  | some info =>
    let info_price := (info.currentPrice.or (info.regularMarketPrice.or
      info.previousClose)).getD 100
    let current_price :=
      match info.close_price with
      | some p => if p = 0 then info_price else p
      | none => info_price
    let free_cash_flow := (info.freeCashflow.or info.operatingCashflow).getD 0
    let shares_outstanding :=
      (info.sharesOutstanding.or info.impliedSharesOutstanding).getD 1000000000
    let fcf_per_share :=
      if free_cash_flow ≠ 0 ∧ shares_outstanding ≠ 0 ∧ 0 < shares_outstanding then
        free_cash_flow / shares_outstanding
      else max 2 (current_price * 0.05)
    let eps := (info.trailingEps.or (info.forwardEps.or info.dilutedEPS)).getD
      (max 1 (current_price * 0.03))
    let book_value := (info.bookValue.or info.tangibleBookValue).getD
      (max 5 (current_price * 0.2))
    let sector := info.sector.getD "Default"
    let earnings_growth := (info.earningsGrowth.or info.revenueGrowth).getD 0.05
    let growth_rate :=
      if earnings_growth ≠ 0 then min |earnings_growth| max_growth_rate else 0.05
    let pe_ratio := get_conservative_pe_estimate multi_source_pe sector info.marketCap
    { ticker := ticker, current_price := current_price,
      fcf_per_share := fcf_per_share,
      eps := if eps = 0 then 1 else eps,
      book_value := book_value, sector := sector, growth_rate := growth_rate,
      pe_ratio := pe_ratio, market_cap := info.marketCap.getD 1000000000,
      company_name := info.longName.getD ticker }

/-- Function `StockValuator.calculate_dcf_value` (lines 734-774): project
free cash flow five years out, discount each year and the Gordon-growth
terminal value, and floor the total at book value. -/
def calculate_dcf_value (stock_data : StockRecord) : ℚ :=
  let fcf_per_share :=
    if stock_data.fcf_per_share ≤ 0 then 2 else stock_data.fcf_per_share
  let growth_rate := stock_data.growth_rate
  let projected_fcf :=
    (List.range 5).map (fun year => fcf_per_share * (1 + growth_rate) ^ (year + 1))
  let pv_fcf :=
    (projected_fcf.enum.map (fun p => p.2 / (1 + discount_rate) ^ (p.1 + 1))).sum
  let terminal_fcf := projected_fcf.getD 4 0 * (1 + terminal_growth_rate)
  let terminal_value := terminal_fcf / (discount_rate - terminal_growth_rate)
  let pv_terminal_value := terminal_value / (1 + discount_rate) ^ 5
  max (pv_fcf + pv_terminal_value) stock_data.book_value

/-- Function `StockValuator.calculate_comps_value` (lines 776-809): EPS
times the conservative P/E, floored at book value; a falsy (zero) stored
P/E falls back to the sector table and a non-positive EPS to `1.0`. -/
def calculate_comps_value (stock_data : StockRecord) : ℚ :=
  let pe_ratio :=
    if stock_data.pe_ratio = 0 then default_industry_pe_ratios stock_data.sector
    else stock_data.pe_ratio
  let eps := if stock_data.eps ≤ 0 then 1 else stock_data.eps
  max (eps * pe_ratio) stock_data.book_value

/-- Function `StockValuator.calculate_fair_value` (lines 811-828):
`max(dcf*0.6 + comps*0.4, book_value)`. -/
def calculate_fair_value (stock_data : StockRecord) : ℚ :=
  let dcf_value := calculate_dcf_value stock_data
  let comps_value := calculate_comps_value stock_data
  let fair_value := dcf_value * dcf_weight + comps_value * comps_weight
  max fair_value stock_data.book_value

/-- Function `StockValuator.determine_status` (lines 830-841). -/
def determine_status (fair_value current_price : ℚ) : String :=
  if current_price < fair_value then "Underpriced" else "Overpriced"

/-- Per-ticker result row built by `StockValuator.process_stock`
(lines 870-878 and 886-894), with the numeric fields kept as numbers
(the Python code formats them as dollar strings for display). -/
structure ValuationRow where
  ticker : String
  fair_value : ℚ
  current_price : ℚ
  price_difference : ℚ
  book_value : ℚ
  status : String

/-- Fallback row of the `except` branch of `process_stock`
(lines 886-894): zeroed fields and status `Error`. -/
def error_row (ticker : String) : ValuationRow :=
  { ticker := ticker, fair_value := 0, current_price := 0,
    price_difference := 0, book_value := 0, status := "Error" }

/-- Function `StockValuator.process_stock` (lines 843-894). The body of
its `try` block is deterministic given the fetched record, so the
fallible pipeline is passed in as an `Except` outcome: `.error` is the
case where anything inside the `try` raised, answered by the fallback
`Error` row. -/
def process_stock (ticker : String) (fetched : Except Unit StockRecord) :
    ValuationRow :=
  match fetched with
  | .error _ => error_row ticker
  | .ok stock_data =>
    let fair_value := calculate_fair_value stock_data
    let status := determine_status fair_value stock_data.current_price
    let price_difference := fair_value - stock_data.current_price
    { ticker := ticker, fair_value := fair_value,
      current_price := stock_data.current_price,
      price_difference := price_difference,
      book_value := stock_data.book_value, status := status }

/-- Collection loop of `StockValuator.run_valuation` (lines 917-946): one
result per submitted ticker, each produced by `process_stock` on that
ticker's pipeline outcome. The thread pool is collapsed to a map: each
ticker is processed independently and contributes exactly one row. -/
def run_valuation (batch : List (String × Except Unit StockRecord)) :
    List ValuationRow :=
  batch.map (fun p => process_stock p.1 p.2)

/-- Initial value of `self.pe_ratio_cache` (line 152). -/
def initial_pe_ratio_cache : List (String × ℚ) := []

/-- Invariant of the P/E cache: every stored value lies in
`[min_pe_ratio, max_pe_ratio]`. -/
def pe_cache_bounded (cache : List (String × ℚ)) : Prop :=
  ∀ t v, cache_lookup cache t = some v → min_pe_ratio ≤ v ∧ v ≤ max_pe_ratio

/-! ### Helper lemmas -/

/-- An in-range `getD` is a member of the list. -/
lemma getD_mem {l : List ℚ} {i : ℕ} (h : i < l.length) (d : ℚ) :
    l.getD i d ∈ l := by
  induction l generalizing i with
  | nil => simp at h
  | cons a t ih =>
    cases i with
    | zero => simp [List.getD]
    | succ j =>
      simp only [List.getD_cons_succ]
      exact List.mem_cons_of_mem a (ih (by simpa using h))

set_option maxHeartbeats 1600000 in
/-- The sector table only holds values between 5 and 40. -/
lemma default_industry_pe_ratios_bounds (sector : String) :
    min_pe_ratio ≤ default_industry_pe_ratios sector ∧
      default_industry_pe_ratios sector ≤ max_pe_ratio := by
  unfold default_industry_pe_ratios min_pe_ratio max_pe_ratio
  split_ifs <;> norm_num

/-- The sector table only holds positive values. -/
lemma default_industry_pe_ratios_pos (sector : String) :
    0 < default_industry_pe_ratios sector := by
  have h := (default_industry_pe_ratios_bounds sector).1
  unfold min_pe_ratio at h
  linarith

/-- The clamp of line 518/573 always lands in `[min_pe_ratio, max_pe_ratio]`. -/
lemma pe_clamp_bounds (x : ℚ) :
    min_pe_ratio ≤ pe_clamp x ∧ pe_clamp x ≤ max_pe_ratio := by
  unfold pe_clamp min_pe_ratio max_pe_ratio
  constructor
  · exact le_max_left _ _
  · exact max_le (by norm_num) (min_le_right _ _)

/-- A clamp of a value already inside the bounds is the identity. -/
lemma pe_clamp_eq_self {x : ℚ} (h1 : min_pe_ratio ≤ x) (h2 : x ≤ max_pe_ratio) :
    pe_clamp x = x := by
  unfold pe_clamp
  rw [min_eq_left h2, max_eq_right h1]

/-- Every element surviving the outlier filter came from the input list. -/
lemma mem_of_mem_filtered_pe_ratios {x : ℚ} {l : List ℚ}
    (h : x ∈ filtered_pe_ratios l) : x ∈ l := by
  simp only [filtered_pe_ratios] at h
  split at h
  · split at h
    · exact List.mem_of_mem_filter h
    · exact h
  · exact h

/-- The outlier filter never empties a non-empty list (the code restores
the unfiltered list in that case). -/
lemma filtered_pe_ratios_ne_nil {l : List ℚ} (h : l ≠ []) :
    filtered_pe_ratios l ≠ [] := by
  simp only [filtered_pe_ratios]
  split
  · split
    · assumption
    · exact h
  · exact h

/-- The mean of a non-empty list of positive rationals is positive. -/
lemma pymean_pos {l : List ℚ} (h : l ≠ []) (hp : ∀ x ∈ l, 0 < x) :
    0 < pymean l := by
  have hlen : 0 < l.length := List.length_pos.mpr h
  have hsum : 0 < l.sum := List.sum_pos l hp h
  unfold pymean
  exact div_pos hsum (by exact_mod_cast hlen)

/-- The median of a non-empty list of positive rationals is positive. -/
lemma pymedian_pos {l : List ℚ} (h : l ≠ []) (hp : ∀ x ∈ l, 0 < x) :
    0 < pymedian l := by
  have hperm : List.Perm (pysort l) l := List.perm_insertionSort _ l
  have hps : ∀ x ∈ pysort l, 0 < x := fun x hx => hp x (hperm.mem_iff.mp hx)
  have hn : 0 < (pysort l).length := by
    rw [hperm.length_eq]
    exact List.length_pos.mpr h
  simp only [pymedian]
  split
  · exact hps _ (getD_mem (by omega) 0)
  · have h2 : 2 ≤ (pysort l).length := by omega
    have ha := hps _ (getD_mem (i := (pysort l).length / 2 - 1) (by omega) 0)
    have hb := hps _ (getD_mem (i := (pysort l).length / 2) (by omega) 0)
    positivity

/-- The central-tendency blend of a non-empty list of positive rationals is
positive. -/
lemma central_blend_pos {l : List ℚ} (h : l ≠ []) (hp : ∀ x ∈ l, 0 < x) :
    0 < central_blend l := by
  have hlen : 0 < l.length := List.length_pos.mpr h
  simp only [central_blend]
  split
  · exact hp _ (getD_mem (by omega) 0)
  · split
    · exact pymean_pos h hp
    · have h1 := pymedian_pos h hp
      have h2 := pymean_pos h hp
      positivity

/-- The status string of a successfully valued stock is never `Error`. -/
lemma determine_status_ne_error (fair_value current_price : ℚ) :
    determine_status fair_value current_price ≠ "Error" := by
  unfold determine_status
  split <;> simp

/-! ### Claims -/

/-- C1: for every stock record, the blended fair value returned by
`calculate_fair_value` equals
`max(book_value, 0.6 * dcf_value + 0.4 * comps_value)` and is therefore
always at least `book_value`. -/
theorem fair_value_blend_with_floor (r : StockRecord) :
    calculate_fair_value r =
      max r.book_value
        (dcf_weight * calculate_dcf_value r + comps_weight * calculate_comps_value r) ∧
    r.book_value ≤ calculate_fair_value r := by
  constructor
  · simp only [calculate_fair_value]
    rw [max_comm]
    congr 1
    ring
  · simp only [calculate_fair_value]
    exact le_max_right _ _

/-- C2: for every pair of inputs, `determine_status` answers `Underpriced`
exactly when the current price is below fair value and `Overpriced`
otherwise; in particular equality yields `Overpriced`, and the status is
never `Error`. -/
theorem determine_status_spec (fair_value current_price : ℚ) :
    (determine_status fair_value current_price = "Underpriced" ↔
        current_price < fair_value) ∧
    (determine_status fair_value current_price = "Overpriced" ↔
        ¬ current_price < fair_value) ∧
    determine_status fair_value fair_value = "Overpriced" ∧
    determine_status fair_value current_price ≠ "Error" := by
  refine ⟨?_, ?_, ?_, determine_status_ne_error _ _⟩ <;>
    simp only [determine_status]
  · split <;> simp_all
  · split <;> simp_all
  · rw [if_neg (lt_irrefl fair_value)]

/-- C3 counterexample: on the input `[10, 11, 12, 100]` the IQR filter of
`aggregate_pe_ratios` does NOT exclude `100` (the exclusive-method
quartiles give `Q3 = 78`, so the upper fence is `179.625`), and the
aggregated result differs from the blend of `[10, 11, 12]`. -/
theorem aggregate_pe_outlier_counterexample :
    (100 : ℚ) ∈ filtered_pe_ratios [10, 11, 12, 100] ∧
    aggregate_pe_ratios [10, 11, 12, 100] ≠ some (central_blend [10, 11, 12]) := by
  have hfil : filtered_pe_ratios [10, 11, 12, 100] = [10, 11, 12, 100] := by
    norm_num [filtered_pe_ratios, py_quantile_exclusive, pysort,
      List.insertionSort, List.orderedInsert, List.filter]
  have hagg : aggregate_pe_ratios [10, 11, 12, 100] = some (20.2 : ℚ) := by
    rw [aggregate_pe_ratios, if_neg (by simp), hfil]
    norm_num [central_blend, pymedian, pymean, pysort, List.insertionSort,
      List.orderedInsert]
  have hblend : central_blend [(10 : ℚ), 11, 12] = 11 := by
    norm_num [central_blend, pymedian, pymean, pysort, List.insertionSort,
      List.orderedInsert]
  refine ⟨by rw [hfil]; simp, ?_⟩
  rw [hagg, hblend]
  norm_num

/-- C3 amended: on `[10, 11, 12, 100]` the IQR filter does apply (the list
has at least 3 values), but with Python's exclusive-method quartiles
(`Q1 = 10.25`, `Q3 = 78`) the fences `[-91.375, 179.625]` retain every
value, so the blend is computed from the full list and yields `20.2`. -/
theorem aggregate_pe_outlier_amended :
    py_quantile_exclusive [10, 11, 12, 100] 4 1 = 10.25 ∧
    py_quantile_exclusive [10, 11, 12, 100] 4 3 = 78 ∧
    filtered_pe_ratios [10, 11, 12, 100] = [10, 11, 12, 100] ∧
    aggregate_pe_ratios [10, 11, 12, 100] = some 20.2 ∧
    central_blend [10, 11, 12, 100] = 20.2 := by
  have hfil : filtered_pe_ratios [10, 11, 12, 100] = [10, 11, 12, 100] := by
    norm_num [filtered_pe_ratios, py_quantile_exclusive, pysort,
      List.insertionSort, List.orderedInsert, List.filter]
  have hblend : central_blend [(10 : ℚ), 11, 12, 100] = 20.2 := by
    norm_num [central_blend, pymedian, pymean, pysort, List.insertionSort,
      List.orderedInsert]
  refine ⟨?_, ?_, hfil, ?_, hblend⟩
  · norm_num [py_quantile_exclusive, pysort, List.insertionSort,
      List.orderedInsert]
  · norm_num [py_quantile_exclusive, pysort, List.insertionSort,
      List.orderedInsert]
  · rw [aggregate_pe_ratios, if_neg (by simp), hfil, hblend]

/-- C4 counterexample: with zero successful P/E sources, sector
`Technology` and a known market cap of 600 billion dollars, the code
returns the plain sector default `22`, not the size-adjusted
`22 * 0.95 = 20.9` the claim predicts. -/
theorem conservative_pe_size_adjust_counterexample :
    get_conservative_pe_estimate none "Technology" (some 600000000000) = 22 ∧
    get_conservative_pe_estimate none "Technology" (some 600000000000) ≠
      pe_clamp (default_industry_pe_ratios "Technology" * 0.95) := by
  have h : get_conservative_pe_estimate none "Technology" (some 600000000000) = 22 := by
    norm_num [get_conservative_pe_estimate, default_industry_pe_ratios, pysort,
      List.insertionSort, List.orderedInsert, pe_clamp, min_pe_ratio, max_pe_ratio]
  refine ⟨h, ?_⟩
  rw [h]
  norm_num [pe_clamp, default_industry_pe_ratios, min_pe_ratio, max_pe_ratio]

/-- C4 amended: when zero P/E sources succeed, `get_conservative_pe_estimate`
returns the unadjusted sector default (clamped bounds are vacuous for the
table's values) for every sector and market cap: the size-adjusted value is
computed and added to the candidate list, but the `len // 2` pick of the
two-element sorted list selects the larger element, which is always the
unadjusted default because every size factor is below 1. -/
theorem conservative_pe_zero_sources_amended (sector : String)
    (market_cap : Option ℚ) :
    get_conservative_pe_estimate none sector market_cap =
      default_industry_pe_ratios sector := by
  have hb := default_industry_pe_ratios_bounds sector
  have hpos := default_industry_pe_ratios_pos sector
  have hclamp := pe_clamp_eq_self hb.1 hb.2
  simp only [get_conservative_pe_estimate]
  split
  · rename_i hmc
    have hsorted : ∀ c : ℚ, c < 1 →
        pysort [default_industry_pe_ratios sector,
            default_industry_pe_ratios sector * c] =
          [default_industry_pe_ratios sector * c,
            default_industry_pe_ratios sector] := by
      intro c hc
      have hlt : default_industry_pe_ratios sector * c <
          default_industry_pe_ratios sector := mul_lt_of_lt_one_right hpos hc
      simp [pysort, List.insertionSort, List.orderedInsert, not_le.mpr hlt]
    split
    · simpa [hsorted 0.95 (by norm_num)] using hclamp
    · split
      · simpa [hsorted 0.98 (by norm_num)] using hclamp
      · split
        · simpa [hsorted 0.85 (by norm_num)] using hclamp
        · simpa [hsorted 0.92 (by norm_num)] using hclamp
  · simpa using hclamp

/-- C5: the central-tendency blend of `aggregate_pe_ratios` returns a
single value as-is, averages two values (so `[20, 24]` aggregates to 22),
and blends three or more values as `0.6 * median + 0.4 * mean`. -/
theorem central_blend_spec :
    (∀ x : ℚ, central_blend [x] = x) ∧
    (∀ x y : ℚ, central_blend [x, y] = (x + y) / 2) ∧
    (∀ l : List ℚ, 3 ≤ l.length →
        central_blend l = 0.6 * pymedian l + 0.4 * pymean l) ∧
    aggregate_pe_ratios [20, 24] = some 22 := by
  refine ⟨?_, ?_, ?_, ?_⟩
  · intro x
    simp [central_blend]
  · intro x y
    norm_num [central_blend, pymean]
  · intro l hl
    rw [central_blend, if_neg (by omega), if_neg (by omega)]
  · rw [aggregate_pe_ratios, if_neg (by simp)]
    norm_num [filtered_pe_ratios, central_blend, pymean]

/-- Witness for C5: the three-or-more branch evaluated at `[10, 11, 12]`. -/
theorem central_blend_spec_witness :
    3 ≤ ([10, 11, 12] : List ℚ).length ∧
    central_blend [10, 11, 12] =
      0.6 * pymedian [10, 11, 12] + 0.4 * pymean [10, 11, 12] :=
  ⟨by simp, central_blend_spec.2.2.1 [10, 11, 12] (by simp)⟩

/-- C6: when the ticker is not cached and at least one P/E source succeeds
(sources only deliver positive ratios), `fetch_pe_ratio_multi_source`
returns the aggregated blend times `pe_conservative_factor = 0.85` clamped
into `[5, 40]`; in particular the single source value `18.0` aggregates to
`18.0` and yields exactly `15.3`. -/
theorem multi_source_conservative_spec (cache : List (String × ℚ))
    (ticker : String) (source_results : List (Option ℚ))
    (hmiss : cache_lookup cache ticker = none)
    (hne : collect_pe_results source_results ≠ [])
    (hpos : ∀ x ∈ collect_pe_results source_results, 0 < x) :
    (fetch_pe_ratio_multi_source cache ticker source_results).1 =
      some (pe_clamp (central_blend (filtered_pe_ratios
        (collect_pe_results source_results)) * pe_conservative_factor)) ∧
    fetch_pe_ratio_multi_source [] "AAPL" [some 18] =
      (some 15.3, [("AAPL", 15.3)]) := by
  constructor
  · have hagg : aggregate_pe_ratios (collect_pe_results source_results) =
        some (central_blend (filtered_pe_ratios
          (collect_pe_results source_results))) := by
      rw [aggregate_pe_ratios, if_neg hne]
    have hbpos : 0 < central_blend (filtered_pe_ratios
        (collect_pe_results source_results)) :=
      central_blend_pos (filtered_pe_ratios_ne_nil hne)
        (fun x hx => hpos x (mem_of_mem_filtered_pe_ratios hx))
    simp only [fetch_pe_ratio_multi_source, hmiss]
    rw [if_neg hne, hagg]
    simp only [if_pos hbpos.ne']
  · rw [fetch_pe_ratio_multi_source]
    norm_num [cache_lookup, collect_pe_results, aggregate_pe_ratios,
      filtered_pe_ratios, central_blend, pymean, pymedian, pe_clamp,
      pe_conservative_factor, min_pe_ratio, max_pe_ratio, List.filterMap,
      List.filter]

/-- Witness for C6: the general statement applied at an empty cache and the
two successful sources `20` and `24`. -/
theorem multi_source_conservative_spec_witness :
    (fetch_pe_ratio_multi_source [] "MSFT" [some 20, some 24]).1 =
      some (pe_clamp (central_blend (filtered_pe_ratios
        (collect_pe_results [some 20, some 24])) * pe_conservative_factor)) :=
  (multi_source_conservative_spec [] "MSFT" [some 20, some 24]
    (by simp [cache_lookup])
    (by norm_num [collect_pe_results])
    (by norm_num [collect_pe_results])).1

/-- C7: the DCF value is the five projected discounted cash flows plus the
discounted Gordon-growth terminal value, floored at book value, with the
effective FCF falling back to `2.0` when non-positive; the terminal-value
denominator `discount_rate - terminal_growth_rate = 0.04` is strictly
positive, and a record with `fcf_per_share = -5` and `book_value = 50`
yields a DCF value of at least `50`. -/
theorem dcf_value_spec (r : StockRecord) :
    calculate_dcf_value r =
      max ((∑ year ∈ Finset.range 5,
              (if r.fcf_per_share ≤ 0 then (2 : ℚ) else r.fcf_per_share) *
                (1 + r.growth_rate) ^ (year + 1) / (1 + discount_rate) ^ (year + 1)) +
            (if r.fcf_per_share ≤ 0 then (2 : ℚ) else r.fcf_per_share) *
                (1 + r.growth_rate) ^ 5 * (1 + terminal_growth_rate) /
              (discount_rate - terminal_growth_rate) / (1 + discount_rate) ^ 5)
        r.book_value ∧
    0 < discount_rate - terminal_growth_rate ∧
    (r.fcf_per_share = -5 → r.book_value = 50 → 50 ≤ calculate_dcf_value r) := by
  refine ⟨?_, by norm_num [discount_rate, terminal_growth_rate], ?_⟩
  · have hr5 : List.range 5 = [0, 1, 2, 3, 4] := rfl
    simp only [calculate_dcf_value, hr5, List.map_cons, List.map_nil,
      List.enum, List.enumFrom, List.sum_cons, List.sum_nil,
      List.getD_cons_succ, List.getD_cons_zero]
    congr 1
  · intro _ hbv
    have hfloor : r.book_value ≤ calculate_dcf_value r := by
      simp only [calculate_dcf_value]
      exact le_max_right _ _
    rw [hbv] at hfloor
    exact hfloor

/-- Record used to witness the DCF floor of C7: negative free cash flow and
a book value of 50. -/
def dcf_floor_example : StockRecord :=
  { ticker := "X", current_price := 100, fcf_per_share := -5, eps := 4,
    book_value := 50, sector := "Technology", growth_rate := 0.05,
    pe_ratio := 20, market_cap := 1000000000, company_name := "X" }

/-- Witness for C7: the floor conjunct applied at `dcf_floor_example`. -/
theorem dcf_value_spec_witness :
    dcf_floor_example.fcf_per_share = -5 ∧
    dcf_floor_example.book_value = 50 ∧
    50 ≤ calculate_dcf_value dcf_floor_example :=
  ⟨rfl, rfl, (dcf_value_spec dcf_floor_example).2.2 rfl rfl⟩

/-- C8: when the entire raw snapshot is unobtainable (`raw = none`, the
provider call failed outright), `fetch_stock_data` returns the fixed
synthetic record — price 150, FCF/share 8, EPS 4, book value 25, sector
Technology, growth 6 percent, market cap 150 billion — rather than
propagating the failure; in the embedding the normalizer is a total
function, so no failure can escape it. -/
theorem fetch_stock_data_synthetic_fallback (multi_source_pe : Option ℚ)
    (ticker : String) :
    (fetch_stock_data multi_source_pe ticker none).current_price = 150 ∧
    (fetch_stock_data multi_source_pe ticker none).fcf_per_share = 8 ∧
    (fetch_stock_data multi_source_pe ticker none).eps = 4 ∧
    (fetch_stock_data multi_source_pe ticker none).book_value = 25 ∧
    (fetch_stock_data multi_source_pe ticker none).sector = "Technology" ∧
    (fetch_stock_data multi_source_pe ticker none).growth_rate = 0.06 ∧
    (fetch_stock_data multi_source_pe ticker none).market_cap = 150000000000 ∧
    (fetch_stock_data multi_source_pe ticker none).ticker = ticker :=
  ⟨rfl, rfl, rfl, rfl, rfl, rfl, rfl, rfl⟩

/-- Record used by the batch-isolation demonstration of C9. -/
def demo_record : StockRecord :=
  { ticker := "S", current_price := 100, fcf_per_share := 2, eps := 1,
    book_value := 10, sector := "Technology", growth_rate := 0,
    pe_ratio := 10, market_cap := 1000000000, company_name := "S" }

/-- Batch of five tickers for C9 in which exactly the third pipeline
throws. -/
def demo_batch : List (String × Except Unit StockRecord) :=
  [("A", .ok demo_record), ("B", .ok demo_record), ("C", .error ()),
   ("D", .ok demo_record), ("E", .ok demo_record)]

/-- C9: a failing pipeline yields exactly one zeroed `Error` row for its
ticker and never aborts the batch: `process_stock` is total, a successful
row is never labelled `Error`, every batch yields one row per ticker, and
in the concrete 5-ticker batch with one throwing pipeline exactly one of
the five rows is an `Error` while the other four are the same rows they
would get in any batch. -/
theorem batch_fault_isolation :
    (∀ ticker (e : Unit), process_stock ticker (.error e) = error_row ticker ∧
        (process_stock ticker (.error e)).fair_value = 0 ∧
        (process_stock ticker (.error e)).current_price = 0 ∧
        (process_stock ticker (.error e)).price_difference = 0 ∧
        (process_stock ticker (.error e)).book_value = 0 ∧
        (process_stock ticker (.error e)).status = "Error") ∧
    (∀ ticker d, (process_stock ticker (.ok d)).status ≠ "Error") ∧
    (∀ batch, (run_valuation batch).length = batch.length) ∧
    (run_valuation demo_batch).length = 5 ∧
    (run_valuation demo_batch).countP (fun row => decide (row.status = "Error")) = 1 ∧
    run_valuation demo_batch =
      [process_stock "A" (.ok demo_record), process_stock "B" (.ok demo_record),
       error_row "C", process_stock "D" (.ok demo_record),
       process_stock "E" (.ok demo_record)] := by
  have hok : ∀ (t : String) (d : StockRecord),
      (process_stock t (.ok d)).status ≠ "Error" := fun t d =>
    determine_status_ne_error (calculate_fair_value d) d.current_price
  refine ⟨fun t e => ⟨rfl, rfl, rfl, rfl, rfl, rfl⟩, hok, ?_, rfl, ?_, rfl⟩
  · intro batch
    simp [run_valuation]
  · simp only [run_valuation, demo_batch, List.map_cons, List.map_nil,
      List.countP_cons, List.countP_nil, decide_eq_true_eq]
    rw [if_neg (hok "A" demo_record), if_neg (hok "B" demo_record),
      if_neg (hok "D" demo_record), if_neg (hok "E" demo_record),
      if_pos (by rfl : (process_stock "C" (.error ())).status = "Error")]

/-- C10: every value ever stored in the P/E cache lies in `[5, 40]`: the
initial cache is empty, `fetch_pe_ratio_multi_source` (the only operation
that touches the cache) writes only the post-discount post-clamp value and
so preserves the invariant, and under the invariant every cache hit it
returns also lies in `[5, 40]`. -/
theorem pe_ratio_cache_invariant :
    pe_cache_bounded initial_pe_ratio_cache ∧
    (∀ cache ticker source_results, pe_cache_bounded cache →
        pe_cache_bounded (fetch_pe_ratio_multi_source cache ticker source_results).2) ∧
    (∀ cache ticker source_results v, pe_cache_bounded cache →
        cache_lookup cache ticker = some v →
        (fetch_pe_ratio_multi_source cache ticker source_results).1 = some v ∧
        min_pe_ratio ≤ v ∧ v ≤ max_pe_ratio) := by
  refine ⟨?_, ?_, ?_⟩
  · intro t v h
    simp [initial_pe_ratio_cache, cache_lookup] at h
  · intro cache ticker source_results hinv
    have hcons : ∀ x : ℚ, pe_cache_bounded ((ticker, pe_clamp x) :: cache) := by
      intro x t v h
      simp only [cache_lookup] at h
      split at h
      · cases h
        exact pe_clamp_bounds _
      · exact hinv t v h
    simp only [fetch_pe_ratio_multi_source]
    cases hcl : cache_lookup cache ticker with
    | some v => exact hinv
    | none =>
      by_cases hempty : collect_pe_results source_results = []
      · simp only [if_pos hempty]
        exact hinv
      · simp only [if_neg hempty]
        cases hagg : aggregate_pe_ratios (collect_pe_results source_results) with
        | none => exact hinv
        | some agg =>
          by_cases hz : agg ≠ 0
          · simp only [if_pos hz]
            exact hcons _
          · simp only [if_neg hz]
            exact hinv
  · intro cache ticker source_results v hinv hl
    refine ⟨?_, hinv ticker v hl⟩
    simp only [fetch_pe_ratio_multi_source, hl]

/-- Witness for C10: preservation applied to the initial empty cache. -/
theorem pe_ratio_cache_invariant_witness :
    pe_cache_bounded
      (fetch_pe_ratio_multi_source initial_pe_ratio_cache "AAPL" [some 18]).2 :=
  pe_ratio_cache_invariant.2.1 initial_pe_ratio_cache "AAPL" [some 18]
    (by simp [pe_cache_bounded, initial_pe_ratio_cache, cache_lookup])

end StockFairValue
